import Mathlib

/-!
Verification of the stylometric feature engine and verticality scoring model
(`computeRawFeatures`, `computeVerticalityScore`, `getAbstractionLevel`,
`getVerticalityClassification`).

The embedding works over `List Char` for texts and over `ℚ` for the
JavaScript numbers; `Math.round(x*100)/100` becomes `jsRound2`, and the
regex scans of the source are embedded as explicit structurally recursive
character scanners.  Case-insensitive comparison and word/space character
classes follow the ASCII semantics the source relies on.
-/

namespace Verticality

/-- Characters matched by the `\s` class of the source's split regexes. -/
def isJsWhitespace (c : Char) : Bool :=
  c.toNat = 32 || c.toNat = 9 || c.toNat = 10 || c.toNat = 13 ||
  c.toNat = 11 || c.toNat = 12 || c.toNat = 0xa0 || c.toNat = 0x1680 ||
  (0x2000 ≤ c.toNat && c.toNat ≤ 0x200a) || c.toNat = 0x2028 ||
  c.toNat = 0x2029 || c.toNat = 0x202f || c.toNat = 0x205f ||
  c.toNat = 0x3000 || c.toNat = 0xfeff

/-- The sentence-terminator class `[.!?]` of the sentence-split regex
(code points of `.`, `!`, `?`). -/
def isSentencePunct (c : Char) : Bool :=
  c.toNat = 46 || c.toNat = 33 || c.toNat = 63

/-- The `\w` class used by the `\b` boundaries of the impersonal patterns:
`[A-Za-z0-9_]`. -/
def isWordChar (c : Char) : Bool :=
  (97 ≤ c.toNat && c.toNat ≤ 122) || (65 ≤ c.toNat && c.toNat ≤ 90) ||
  (48 ≤ c.toNat && c.toNat ≤ 57) || c.toNat = 95

/-- ASCII lower-casing, as used for comparisons against the ASCII word lists. -/
def asciiLower (c : Char) : Char :=
  if 65 ≤ c.toNat && c.toNat ≤ 90 then Char.ofNat (c.toNat + 32) else c

/-- `[0-9]`, the `\d` class of `/\d:\d/`. -/
def isDigitChar (c : Char) : Bool :=
  48 ≤ c.toNat && c.toNat ≤ 57

/-- Punctuation stripped from tokens before the ego-pronoun lookup:
`/[.,;:!?"']/g` (code points of `.`, `,`, `;`, `:`, `!`, `?`, the double
and the single quote). -/
def isEgoStripChar (c : Char) : Bool :=
  c.toNat = 46 || c.toNat = 44 || c.toNat = 59 || c.toNat = 58 ||
  c.toNat = 33 || c.toNat = 63 || c.toNat = 34 || c.toNat = 39

/-- Punctuation stripped from tokens before the subordinator lookup:
`/[.,;:]/g`. -/
def isSubStripChar (c : Char) : Bool :=
  c.toNat = 46 || c.toNat = 44 || c.toNat = 59 || c.toNat = 58

/-- Worker for `text.split(/\s+/).filter(Boolean)`: accumulates the current
token (reversed) and emits it at each whitespace run, dropping empties. -/
def splitWsAux : List Char → List Char → List (List Char)
  | [], acc => if acc.isEmpty then [] else [acc.reverse]
  | c :: rest, acc =>
    if isJsWhitespace c then
      if acc.isEmpty then splitWsAux rest []
      else acc.reverse :: splitWsAux rest []
    else splitWsAux rest (c :: acc)

/-- `text.split(/\s+/).filter(Boolean)`: the whitespace-delimited tokens. -/
def wordsOf (t : List Char) : List (List Char) :=
  splitWsAux t []

/-- `text.split(/[.!?]+\s+/)` as a character-level state machine.
State 0: inside a fragment (`acc` holds its characters reversed).
State 1: inside a run of `[.!?]` (`ps`, reversed) that may yet become a
delimiter if whitespace follows; otherwise the run is ordinary text.
State 2: inside the `\s+` tail of a delimiter that has already been taken
(the fragment before it has been emitted). -/
def splitSentAux : List Char → List Char → List Char → Nat → List (List Char)
  | [], acc, ps, st =>
    if st = 1 then [(ps ++ acc).reverse] else [acc.reverse]
  | c :: rest, acc, ps, st =>
    if st = 1 then
      if isSentencePunct c then splitSentAux rest acc (c :: ps) 1
      else if isJsWhitespace c then acc.reverse :: splitSentAux rest [] [] 2
      else splitSentAux rest (c :: (ps ++ acc)) [] 0
    else if st = 2 then
      if isJsWhitespace c then splitSentAux rest [] [] 2
      else if isSentencePunct c then splitSentAux rest [] [c] 1
      else splitSentAux rest [c] [] 0
    else
      if isSentencePunct c then splitSentAux rest acc [c] 1
      else splitSentAux rest (c :: acc) ps 0

/-- `text.split(/[.!?]+\s+/)`. -/
def splitSentences (t : List Char) : List (List Char) :=
  splitSentAux t [] [] 0

/-- Token normalisation for the ego-pronoun lookup:
`word.toLowerCase().replace(/[.,;:!?"']/g, '')`. -/
def normTokenEgo (w : List Char) : List Char :=
  (w.map asciiLower).filter (fun c => !isEgoStripChar c)

/-- Token normalisation for the subordinator lookup:
`word.toLowerCase().replace(/[.,;:]/g, '')`. -/
def normTokenSub (w : List Char) : List Char :=
  (w.map asciiLower).filter (fun c => !isSubStripChar c)

/-- The fixed first-person pronoun list `egoPronounsList`. -/
def egoPronouns : List (List Char) :=
  ["i", "me", "my", "mine", "myself", "we", "us", "our", "ours",
   "ourselves"].map String.data

/-- The fixed 21-word subordinator list. -/
def subordinators : List (List Char) :=
  ["that", "which", "who", "whom", "whose", "where", "when", "while",
   "although", "because", "since", "if", "unless", "until", "before",
   "after", "as", "whereas", "whenever", "wherever", "whether"].map
    String.data

/-- Non-overlapping count of `/\d:\d/g` matches, as a three-character
scanner: on a match the whole `\d:\d` is consumed, otherwise the scan
advances one character. -/
def countTimeLike : List Char → Nat
  | a :: b :: c :: rest =>
    if isDigitChar a && b.toNat = 58 && isDigitChar c then
      1 + countTimeLike rest
    else countTimeLike (b :: c :: rest)
  | _ => 0

/-- Non-overlapping count of `/--/g` matches. -/
def countDoubleDash : List Char → Nat
  | a :: b :: rest =>
    if a.toNat = 45 && b.toNat = 45 then 1 + countDoubleDash rest
    else countDoubleDash (b :: rest)
  | _ => 0

/-- Case-insensitive (ASCII) literal prefix match: returns the remainder of
the text after the phrase when the phrase matches at the front. -/
def matchPrefixCI : List Char → List Char → Option (List Char)
  | [], s => some s
  | _ :: _, [] => none
  | p :: ps, c :: cs => if asciiLower c = p then matchPrefixCI ps cs else none

/-- `\b` to the right of a match: end of input or a non-word character. -/
def boundaryOk : List Char → Bool
  | [] => true
  | c :: _ => !isWordChar c

/-- Attempt to match `/\b<phrase>s?\b/i` at the front of `s` (the leading
`\b` is checked by the caller); returns the matched length.  When `optS` is
set, a following `s`/`S` must be absorbed greedily, exactly as the regex
engine does: a trailing `s` is itself a word character, so the short
alternative cannot end in front of it. -/
def matchPhraseAt (phrase : List Char) (optS : Bool) (s : List Char) :
    Option Nat :=
  match matchPrefixCI phrase s with
  | none => none
  | some rest =>
    if optS then
      match rest with
      | c :: rest2 =>
        if asciiLower c = 's' then
          if boundaryOk rest2 then some (phrase.length + 1) else none
        else if boundaryOk rest then some phrase.length else none
      | [] => some phrase.length
    else if boundaryOk rest then some phrase.length else none

/-- Non-overlapping count of the matches of one impersonal pattern.
`skip` is the number of characters of the last match still to be walked
over; `prevW` records whether the previous character was a word character
(for the leading `\b`: every phrase starts with a word character). -/
def countPatternAux (phrase : List Char) (optS : Bool) :
    Nat → Bool → List Char → Nat
  | _, _, [] => 0
  | 0, prevW, c :: rest =>
    if prevW then countPatternAux phrase optS 0 (isWordChar c) rest
    else
      match matchPhraseAt phrase optS (c :: rest) with
      | some n => 1 + countPatternAux phrase optS (n - 1) (isWordChar c) rest
      | none => countPatternAux phrase optS 0 (isWordChar c) rest
  | k + 1, _, c :: rest => countPatternAux phrase optS k (isWordChar c) rest

/-- Count of `/\b<phrase>(s?)\b/gi` matches over the whole text. -/
def countPattern (phrase : List Char) (optS : Bool) (t : List Char) : Nat :=
  countPatternAux phrase optS 0 false t

/-- The fixed impersonal-construction patterns; the `Bool` marks the
optional trailing `s` of `/\bthere exists?\b/`. -/
def impersonalPatterns : List (List Char × Bool) :=
  [("it is".data, false), ("it was".data, false),
   ("it has been".data, false), ("it would be".data, false),
   ("there is".data, false), ("there are".data, false),
   ("there was".data, false), ("there were".data, false),
   ("there exist".data, true), ("one may".data, false),
   ("one can".data, false), ("one cannot".data, false),
   ("one must".data, false), ("one might".data, false),
   ("this does not mean".data, false),
   ("what this indicates".data, false),
   ("it is to be noted".data, false),
   ("to the extent that".data, false),
   ("insofar as".data, false), ("inasmuch as".data, false)]

/-- Sum of the per-pattern match counts (`impersonalCount` in the source). -/
def impersonalCount (t : List Char) : Nat :=
  (impersonalPatterns.map (fun p => countPattern p.1 p.2 t)).sum

/-- Computable floor of a rational (equal to `⌊x⌋`, see `ratFloor_eq`). -/
def ratFloor (x : ℚ) : ℤ :=
  x.num / (x.den : ℤ)

/-- JavaScript `Math.round(x * 100) / 100` (`Math.round(y) = ⌊y + 1/2⌋`). -/
def jsRound2 (x : ℚ) : ℚ :=
  ((ratFloor (x * 100 + 1 / 2) : ℤ) : ℚ) / 100

/-- JavaScript `Math.round(x * 10) / 10`. -/
def jsRound1 (x : ℚ) : ℚ :=
  ((ratFloor (x * 10 + 1 / 2) : ℤ) : ℚ) / 10

/-- `wordCount > 0 ? (count / wordCount) * 1000 : 0`. -/
def ratePerThousand (count wordCount : Nat) : ℚ :=
  if wordCount = 0 then 0 else ((count : ℚ) / wordCount) * 1000

/-- The `RawFeatures` record of the source. -/
structure RawFeatures where
  wordCount : Nat
  egoPronounRate : ℚ
  avgSentenceLength : ℚ
  maxSentenceLength : Nat
  subordinationDepth : ℚ
  semicolonFreq : ℚ
  colonFreq : ℚ
  dashFreq : ℚ
  questionFreq : ℚ
  impersonalRate : ℚ
deriving DecidableEq

/-- `wordCount`: number of whitespace-delimited tokens. -/
def wordCountOf (t : List Char) : Nat :=
  (wordsOf t).length

/-- `egoPronounCount`: tokens whose normalised form is an ego pronoun. -/
def egoPronounCount (t : List Char) : Nat :=
  (wordsOf t).countP (fun w => egoPronouns.contains (normTokenEgo w))

/-- `sentences`: the fragments of the sentence split whose own
whitespace-tokenisation has more than 2 words. -/
def qualifyingSentences (t : List Char) : List (List Char) :=
  (splitSentences t).filter (fun s => 2 < (wordsOf s).length)

/-- `sentenceWordCounts`. -/
def sentenceLengths (t : List Char) : List Nat :=
  (qualifyingSentences t).map (fun s => (wordsOf s).length)

/-- `avgSentenceLength` before rounding. -/
def avgLenOf (t : List Char) : ℚ :=
  if (sentenceLengths t).length = 0 then 0
  else ((sentenceLengths t).sum : ℚ) / (sentenceLengths t).length

/-- `maxSentenceLength` (`Math.max(...counts)`, `0` when there are none). -/
def maxLenOf (t : List Char) : Nat :=
  (sentenceLengths t).foldl Nat.max 0

/-- `subordinatorCount`. -/
def subordinatorCount (t : List Char) : Nat :=
  (wordsOf t).countP (fun w => subordinators.contains (normTokenSub w))

/-- `subordinationDepth` before rounding:
`Math.min(7, Math.max(1, (subordinatorCount / sentences.length) * 1.5))`,
or `1` when there is no qualifying sentence. -/
def subDepthOf (t : List Char) : ℚ :=
  if (qualifyingSentences t).length = 0 then 1
  else
    min 7 (max 1
      (((subordinatorCount t : ℚ) / (qualifyingSentences t).length) * 1.5))

/-- `semicolonCount`: matches of `/;/g`. -/
def semicolonCount (t : List Char) : Nat :=
  t.count (Char.ofNat 59)

/-- `colonCount`: matches of `/:/g` minus matches of `/\d:\d/g`. -/
def colonCountRaw (t : List Char) : ℤ :=
  (t.count (Char.ofNat 58) : ℤ) - countTimeLike t

/-- `dashCount`: em-dashes plus non-overlapping double hyphens. -/
def dashCount (t : List Char) : Nat :=
  t.count (Char.ofNat 0x2014) + countDoubleDash t

/-- `questionCount`: matches of `/\?/g`. -/
def questionCount (t : List Char) : Nat :=
  t.count (Char.ofNat 63)

/-- `colonFreq` before rounding:
`wordCount > 0 ? Math.max(0, colonCount) / wordCount * 1000 : 0`. -/
def colonRateOf (t : List Char) : ℚ :=
  if wordCountOf t = 0 then 0
  else (max 0 ((colonCountRaw t : ℚ)) / wordCountOf t) * 1000

/-- `computeRawFeatures` over a character list. -/
def computeRawFeaturesL (t : List Char) : RawFeatures :=
  { wordCount := wordCountOf t
    egoPronounRate :=
      jsRound2 (ratePerThousand (egoPronounCount t) (wordCountOf t))
    avgSentenceLength := jsRound1 (avgLenOf t)
    maxSentenceLength := maxLenOf t
    subordinationDepth := jsRound1 (subDepthOf t)
    semicolonFreq :=
      jsRound2 (ratePerThousand (semicolonCount t) (wordCountOf t))
    colonFreq := jsRound2 (colonRateOf t)
    dashFreq := jsRound2 (ratePerThousand (dashCount t) (wordCountOf t))
    questionFreq :=
      jsRound2 (ratePerThousand (questionCount t) (wordCountOf t))
    impersonalRate :=
      jsRound2 (ratePerThousand (impersonalCount t) (wordCountOf t)) }

/-- `computeRawFeatures(text)`. -/
def computeRawFeatures (text : String) : RawFeatures :=
  computeRawFeaturesL text.data

/-- `Math.max(0, Math.min(1, x))`. -/
def clamp01 (x : ℚ) : ℚ :=
  max 0 (min 1 x)

/-- The `normalize` helper of the scorer. -/
def normalize (value minVal maxVal : ℚ) : ℚ :=
  clamp01 ((value - minVal) / (maxVal - minVal))

/-- `metaphorScores[metaphorDensity] ?? 0.5` on the numeric path: the
value for the four own keys of the record, and the `?? 0.5` default for a
key the lookup maps to `undefined`.  Keys inherited from
`Object.prototype`, where the source lookup yields a non-number and the
score becomes NaN, are modelled by `metaphorScoreJs` below. -/
def metaphorScore (s : String) : ℚ :=
  if s = "none" then 1 else if s = "low" then 0.75
  else if s = "moderate" then 0.5 else if s = "high" then 0 else 0.5

/-- `anecdoteScores[anecdoteFrequency] ?? 0.5` on the numeric path; see
`metaphorScore`. -/
def anecdoteScore (s : String) : ℚ :=
  if s = "none" then 1 else if s = "rare" then 0.75
  else if s = "occasional" then 0.5 else if s = "frequent" then 0 else 0.5

/-- The unclamped weighted sum of `computeVerticalityScore`, with the two
enum contributions passed as numbers. -/
def verticalityCore (f : RawFeatures) (m a : ℚ) : ℚ :=
  0.25 * (1 - normalize f.egoPronounRate 0 80) +
  0.15 * normalize f.impersonalRate 0 20 +
  0.15 * normalize f.subordinationDepth 1 7 +
  0.10 * normalize f.semicolonFreq 0 15 +
  0.10 * (1 - normalize f.dashFreq 0 20) +
  0.10 * (1 - normalize f.questionFreq 0 10) +
  0.075 * m +
  0.075 * a

/-- The unclamped weighted sum of `computeVerticalityScore` on the numeric
path. -/
def verticalityRaw (f : RawFeatures) (metaphorDensity anecdoteFrequency :
    String) : ℚ :=
  verticalityCore f (metaphorScore metaphorDensity)
    (anecdoteScore anecdoteFrequency)

/-- `computeVerticalityScore` on the numeric path (every input on which
the source computes a real number).  The full JavaScript behaviour,
including the NaN produced by prototype-inherited lookup keys, is
`computeVerticalityScoreJs` below. -/
def computeVerticalityScore (rawFeatures : RawFeatures)
    (metaphorDensity anecdoteFrequency : String) : ℚ :=
  jsRound2 (clamp01 (verticalityRaw rawFeatures metaphorDensity
    anecdoteFrequency))

/-- The property names a plain JavaScript object literal inherits from
`Object.prototype`.  For these keys `metaphorScores[k]` is the inherited
member (a function, or for `__proto__` the prototype object) — not
`undefined` — so `?? 0.5` does not substitute the default, and
arithmetic on the member yields NaN. -/
def objectPrototypeKeys : List String :=
  ["constructor", "hasOwnProperty", "isPrototypeOf",
   "propertyIsEnumerable", "toLocaleString", "toString", "valueOf",
   "__proto__", "__defineGetter__", "__defineSetter__",
   "__lookupGetter__", "__lookupSetter__"]

/-- `metaphorScores[metaphorDensity] ?? 0.5` with full JavaScript object
semantics: a number for the four own keys, NaN (modelled `none`) for a
prototype-inherited key, and the `?? 0.5` default otherwise. -/
def metaphorScoreJs (s : String) : Option ℚ :=
  if s = "none" then some 1 else if s = "low" then some 0.75
  else if s = "moderate" then some 0.5 else if s = "high" then some 0
  else if s ∈ objectPrototypeKeys then none
  else some 0.5

/-- `anecdoteScores[anecdoteFrequency] ?? 0.5` with full JavaScript object
semantics; see `metaphorScoreJs`. -/
def anecdoteScoreJs (s : String) : Option ℚ :=
  if s = "none" then some 1 else if s = "rare" then some 0.75
  else if s = "occasional" then some 0.5 else if s = "frequent" then some 0
  else if s ∈ objectPrototypeKeys then none
  else some 0.5

/-- `computeVerticalityScore` with full JavaScript semantics: when either
enum lookup produces a non-number, `0.075 * member` is NaN, NaN propagates
through the sum, `Math.min`, `Math.max`, `Math.round` and the division, so
the returned score is NaN (modelled `none`); otherwise the numeric path of
`computeVerticalityScore` is taken. -/
def computeVerticalityScoreJs (rawFeatures : RawFeatures)
    (metaphorDensity anecdoteFrequency : String) : Option ℚ :=
  match metaphorScoreJs metaphorDensity,
      anecdoteScoreJs anecdoteFrequency with
  | some m, some a => some (jsRound2 (clamp01 (verticalityCore rawFeatures
      m a)))
  | _, _ => none

/-- The `{ level, description }` record returned by `getAbstractionLevel`. -/
structure AbstractionLevel where
  level : String
  description : String
deriving DecidableEq

/-- `getAbstractionLevel`. -/
def getAbstractionLevel (verticalityScore : ℚ) : AbstractionLevel :=
  if 0.85 ≤ verticalityScore then
    { level := "Extreme Abstraction"
      description := "Prose operates at the level of pure logical relations. No particulars survive. Variables, not names. Structure, not story." }
  else if 0.60 ≤ verticalityScore then
    { level := "High Abstraction"
      description := "Conceptual architecture dominates. Concrete examples appear but are subordinated to logical structure." }
  else if 0.40 ≤ verticalityScore then
    { level := "Mixed"
      description := "Abstraction and particularity in tension. Neither dominates." }
  else if 0.20 ≤ verticalityScore then
    { level := "Low Abstraction"
      description := "Concrete particulars dominate. Concepts emerge from stories, examples, and sensory detail." }
  else
    { level := "Extreme Concreteness"
      description := "Pure sensory/narrative immersion. Abstraction dissolved into bodies, voices, and experience." }

/-- `getVerticalityClassification`. -/
def getVerticalityClassification (score : ℚ) : String :=
  if 0.85 ≤ score then "Extreme Vertical"
  else if 0.70 ≤ score then "High Vertical"
  else if 0.40 ≤ score then "Mid-Range"
  else if 0.20 ≤ score then "Low Vertical / Moderate Horizontal"
  else "Extreme Horizontal"

/-- The reading of the ego-pronoun token normalisation in which the
punctuation characters are stripped only from the two ends of the token
(surrounding occurrences), not globally.  This follows the specification's
words and is compared against the source's global `replace`. -/
def specSurroundStrip (w : List Char) : List Char :=
  ((w.dropWhile isEgoStripChar).reverse.dropWhile isEgoStripChar).reverse

/-- Ego-pronoun count under the surrounding-strip reading. -/
def specEgoCountSurround (t : List Char) : Nat :=
  (wordsOf t).countP
    (fun w => egoPronouns.contains ((specSurroundStrip w).map asciiLower))

/-- Ego-pronoun rate under the surrounding-strip reading. -/
def specEgoRateSurround (t : List Char) : ℚ :=
  jsRound2 (ratePerThousand (specEgoCountSurround t) (wordCountOf t))

/-- A text whose token `U.S.` has an interior period: distinguishes
surrounding-stripping from the source's global stripping. -/
def c6Text : String := "U.S. regulators announced policy"

/-- Six qualifying sentences holding seven subordinator tokens:
`(7 / 6) * 1.5 = 1.75` exercises the 1-decimal rounding of the stored
`subordinationDepth`. -/
def c7Text : String :=
  "that that cat ran. that dog sat down. that bird flew away. that fish swam far. that goat ate grass. that cow mooed loud."

/-- One 10-word sentence followed by the separating space. -/
def c1Block : String :=
  "alpha beta gamma delta epsilon zeta eta theta iota kappa. "

/-- The final 10-word sentence (no trailing separator). -/
def c1Last : String :=
  "alpha beta gamma delta epsilon zeta eta theta iota kappa."

/-- `n` separated sentence blocks followed by the final sentence. -/
def c1TextL (n : Nat) : List Char :=
  (List.replicate n c1Block.data).flatten ++ c1Last.data

/-- 1000 words in 100 uniform sentences of exactly 10 words each, with no
semicolons, colons, dashes, question marks, ego pronouns or subordinators. -/
def c1Text : String :=
  String.mk (c1TextL 99)

/-- The ten tokens of one sentence block. -/
def c1Words : List (List Char) :=
  ["alpha", "beta", "gamma", "delta", "epsilon", "zeta", "eta", "theta",
   "iota", "kappa."].map String.data

/-- The sentence fragment produced for each non-final sentence. -/
def c1Frag : List Char :=
  "alpha beta gamma delta epsilon zeta eta theta iota kappa".data

/-- The final sentence fragment (keeps its period). -/
def c1FragDot : List Char :=
  "alpha beta gamma delta epsilon zeta eta theta iota kappa.".data

/-- The raw features the uniform 1000-word text must produce. -/
def c1Features : RawFeatures :=
  { wordCount := 1000, egoPronounRate := 0, avgSentenceLength := 10,
    maxSentenceLength := 10, subordinationDepth := 1, semicolonFreq := 0,
    colonFreq := 0, dashFreq := 0, questionFreq := 0, impersonalRate := 0 }

/-- A generic feature vector used to instantiate universally quantified
theorems at a concrete input. -/
def sampleFeatures : RawFeatures :=
  { wordCount := 800, egoPronounRate := 12, avgSentenceLength := 22,
    maxSentenceLength := 41, subordinationDepth := 2.5, semicolonFreq := 3,
    colonFreq := 1, dashFreq := 2, questionFreq := 1, impersonalRate := 4 }

theorem ratFloor_eq (x : ℚ) : ratFloor x = ⌊x⌋ :=
  Rat.floor_def.symm

theorem jsRound2_eq_floor (x : ℚ) :
    jsRound2 x = ((⌊x * 100 + 1 / 2⌋ : ℤ) : ℚ) / 100 := by
  rw [jsRound2, ratFloor_eq]

theorem jsRound1_eq_floor (x : ℚ) :
    jsRound1 x = ((⌊x * 10 + 1 / 2⌋ : ℤ) : ℚ) / 10 := by
  rw [jsRound1, ratFloor_eq]

theorem clamp01_nonneg (x : ℚ) : 0 ≤ clamp01 x :=
  le_max_left 0 _

theorem clamp01_le_one (x : ℚ) : clamp01 x ≤ 1 :=
  max_le (by norm_num) (min_le_left _ _)

theorem clamp01_mono {x y : ℚ} (h : x ≤ y) : clamp01 x ≤ clamp01 y :=
  max_le_max le_rfl (min_le_min le_rfl h)

theorem jsRound2_mono {x y : ℚ} (h : x ≤ y) : jsRound2 x ≤ jsRound2 y := by
  rw [jsRound2_eq_floor, jsRound2_eq_floor]
  have hf : ⌊x * 100 + 1 / 2⌋ ≤ ⌊y * 100 + 1 / 2⌋ :=
    Int.floor_le_floor (by linarith)
  have hq : ((⌊x * 100 + 1 / 2⌋ : ℤ) : ℚ) ≤ ((⌊y * 100 + 1 / 2⌋ : ℤ) : ℚ) := by
    exact_mod_cast hf
  linarith

/-- On the numeric path the score lies in `[0, 1]` and is an integer
multiple of `0.01`: it is the clamp to `[0, 1]` of the weighted sum,
rounded to two decimals. -/
theorem scoreQ_bounded_centi (f : RawFeatures)
    (md af : String) :
    0 ≤ computeVerticalityScore f md af ∧
    computeVerticalityScore f md af ≤ 1 ∧
    ∃ k : ℤ, 0 ≤ k ∧ k ≤ 100 ∧
      computeVerticalityScore f md af = (k : ℚ) / 100 := by
  have h0 : 0 ≤ clamp01 (verticalityRaw f md af) := clamp01_nonneg _
  have h1 : clamp01 (verticalityRaw f md af) ≤ 1 := clamp01_le_one _
  have hs : computeVerticalityScore f md af =
      ((⌊clamp01 (verticalityRaw f md af) * 100 + 1 / 2⌋ : ℤ) : ℚ) / 100 := by
    rw [computeVerticalityScore, jsRound2_eq_floor]
  have hk0 : 0 ≤ ⌊clamp01 (verticalityRaw f md af) * 100 + 1 / 2⌋ :=
    Int.le_floor.mpr (by push_cast; linarith)
  have hk100 : ⌊clamp01 (verticalityRaw f md af) * 100 + 1 / 2⌋ ≤ 100 := by
    have hlt : ⌊clamp01 (verticalityRaw f md af) * 100 + 1 / 2⌋ < 101 :=
      Int.floor_lt.mpr (by push_cast; linarith)
    omega
  have hc0 : (0 : ℚ) ≤
      ((⌊clamp01 (verticalityRaw f md af) * 100 + 1 / 2⌋ : ℤ) : ℚ) := by
    exact_mod_cast hk0
  have hc1 : ((⌊clamp01 (verticalityRaw f md af) * 100 + 1 / 2⌋ : ℤ) : ℚ) ≤
      100 := by
    exact_mod_cast hk100
  refine ⟨by rw [hs]; linarith, by rw [hs]; linarith,
    ⌊clamp01 (verticalityRaw f md af) * 100 + 1 / 2⌋, hk0, hk100, hs⟩

/-- C4.  The score is monotonically non-increasing in `egoPronounRate`:
with every other field and both enum strings held fixed, a larger
ego-pronoun rate never yields a strictly larger score. -/
theorem c4_ego_rate_antitone (w : Nat) (e1 e2 av : ℚ) (mx : Nat)
    (sd sf cf df qf ir : ℚ) (md af : String) (h : e1 ≤ e2) :
    computeVerticalityScore ⟨w, e2, av, mx, sd, sf, cf, df, qf, ir⟩ md af ≤
      computeVerticalityScore ⟨w, e1, av, mx, sd, sf, cf, df, qf, ir⟩ md
        af := by
  apply jsRound2_mono
  apply clamp01_mono
  have hn : normalize e1 0 80 ≤ normalize e2 0 80 := by
    apply clamp01_mono
    have h80 : (0 : ℚ) < 80 - 0 := by norm_num
    exact (div_le_div_iff_of_pos_right h80).mpr (by linarith)
  unfold verticalityRaw verticalityCore
  dsimp only
  linarith

/-- C4 witness at a concrete input. -/
theorem c4_ego_rate_antitone_witness :
    computeVerticalityScore ⟨800, 40, 22, 41, 2.5, 3, 1, 2, 1, 4⟩ "low"
        "rare" ≤
      computeVerticalityScore ⟨800, 12, 22, 41, 2.5, 3, 1, 2, 1, 4⟩ "low"
        "rare" :=
  c4_ego_rate_antitone 800 12 40 22 41 2.5 3 1 2 1 4 "low" "rare"
    (by norm_num)

/-- C10.  The score reads only `egoPronounRate`, `impersonalRate`,
`subordinationDepth`, `semicolonFreq`, `dashFreq` and `questionFreq` plus
the two enum strings: two feature vectors agreeing on those six fields but
differing arbitrarily in `wordCount`, `avgSentenceLength`,
`maxSentenceLength` and `colonFreq` score identically. -/
theorem c10_score_depends_only_on_used_fields (w1 w2 : Nat) (e av1 av2 : ℚ)
    (mx1 mx2 : Nat) (sd sf cf1 cf2 df qf ir : ℚ) (md af : String) :
    computeVerticalityScore ⟨w1, e, av1, mx1, sd, sf, cf1, df, qf, ir⟩ md
        af =
      computeVerticalityScore ⟨w2, e, av2, mx2, sd, sf, cf2, df, qf, ir⟩ md
        af :=
  rfl

/-- C5.  `getAbstractionLevel` is the top-down threshold table with
inclusive lower bounds: level is "Extreme Abstraction" iff `0.85 ≤ s`,
"High Abstraction" iff `0.60 ≤ s < 0.85`, "Mixed" iff `0.40 ≤ s < 0.60`,
"Low Abstraction" iff `0.20 ≤ s < 0.40`, "Extreme Concreteness" iff
`s < 0.20`; in particular at `0.85`, `0.849` and `0`. -/
theorem c5_abstraction_thresholds :
    (∀ s : ℚ,
      ((getAbstractionLevel s).level = "Extreme Abstraction" ↔ 0.85 ≤ s) ∧
      ((getAbstractionLevel s).level = "High Abstraction" ↔
        0.60 ≤ s ∧ s < 0.85) ∧
      ((getAbstractionLevel s).level = "Mixed" ↔ 0.40 ≤ s ∧ s < 0.60) ∧
      ((getAbstractionLevel s).level = "Low Abstraction" ↔
        0.20 ≤ s ∧ s < 0.40) ∧
      ((getAbstractionLevel s).level = "Extreme Concreteness" ↔
        s < 0.20)) ∧
    (getAbstractionLevel 0.85).level = "Extreme Abstraction" ∧
    (getAbstractionLevel 0.849).level = "High Abstraction" ∧
    (getAbstractionLevel 0).level = "Extreme Concreteness" := by
  refine ⟨fun s => ?_, by with_unfolding_all decide,
    by with_unfolding_all decide, by with_unfolding_all decide⟩
  unfold getAbstractionLevel
  split_ifs with h1 h2 h3 h4 <;>
    refine ⟨?_, ?_, ?_, ?_, ?_⟩ <;> simp_all <;> try linarith
  all_goals intro hc; linarith

/-- C9.  `getVerticalityClassification` uses its own threshold table
("Extreme Vertical" iff `0.85 ≤ s`, "High Vertical" iff `0.70 ≤ s < 0.85`,
"Mid-Range" iff `0.40 ≤ s < 0.70`, "Low Vertical / Moderate Horizontal"
iff `0.20 ≤ s < 0.40`, else "Extreme Horizontal"), and on
`0.60 ≤ s < 0.70` the two tables disagree as the source does: abstraction
level "High Abstraction" but classification "Mid-Range". -/
theorem c9_classification_thresholds :
    (∀ s : ℚ,
      (getVerticalityClassification s = "Extreme Vertical" ↔ 0.85 ≤ s) ∧
      (getVerticalityClassification s = "High Vertical" ↔
        0.70 ≤ s ∧ s < 0.85) ∧
      (getVerticalityClassification s = "Mid-Range" ↔
        0.40 ≤ s ∧ s < 0.70) ∧
      (getVerticalityClassification s = "Low Vertical / Moderate Horizontal"
        ↔ 0.20 ≤ s ∧ s < 0.40) ∧
      (getVerticalityClassification s = "Extreme Horizontal" ↔
        s < 0.20)) ∧
    ∀ s : ℚ, 0.60 ≤ s → s < 0.70 →
      (getAbstractionLevel s).level = "High Abstraction" ∧
      getVerticalityClassification s = "Mid-Range" := by
  constructor
  · intro s
    unfold getVerticalityClassification
    split_ifs with h1 h2 h3 h4 <;>
      refine ⟨?_, ?_, ?_, ?_, ?_⟩ <;> simp_all <;> try linarith
    all_goals intro hc; linarith
  · intro s h6 h7
    constructor
    · unfold getAbstractionLevel
      have hn : ¬ (0.85 : ℚ) ≤ s := by linarith
      rw [if_neg hn, if_pos (by linarith : (0.60 : ℚ) ≤ s)]
    · unfold getVerticalityClassification
      have hn : ¬ (0.85 : ℚ) ≤ s := by linarith
      have hn2 : ¬ (0.70 : ℚ) ≤ s := by linarith
      rw [if_neg hn, if_neg hn2, if_pos (by linarith : (0.40 : ℚ) ≤ s)]

/-- C9 witness at `s = 0.65`. -/
theorem c9_classification_thresholds_witness :
    (getAbstractionLevel 0.65).level = "High Abstraction" ∧
    getVerticalityClassification 0.65 = "Mid-Range" :=
  c9_classification_thresholds.2 0.65 (by norm_num) (by norm_num)

/-- A string that is a recognised metaphor key, or is not inherited from
`Object.prototype`, takes the numeric path of the metaphor lookup. -/
theorem metaphorScoreJs_eq_some {md : String}
    (hm : md = "none" ∨ md = "low" ∨ md = "moderate" ∨ md = "high" ∨
      md ∉ objectPrototypeKeys) :
    metaphorScoreJs md = some (metaphorScore md) := by
  unfold metaphorScoreJs metaphorScore
  split_ifs with h1 h2 h3 h4 h5
  · rfl
  · rfl
  · rfl
  · rfl
  · rcases hm with h | h | h | h | h
    · exact absurd h h1
    · exact absurd h h2
    · exact absurd h h3
    · exact absurd h h4
    · exact absurd h5 h
  · rfl

/-- A string that is a recognised anecdote key, or is not inherited from
`Object.prototype`, takes the numeric path of the anecdote lookup. -/
theorem anecdoteScoreJs_eq_some {af : String}
    (ha : af = "none" ∨ af = "rare" ∨ af = "occasional" ∨
      af = "frequent" ∨ af ∉ objectPrototypeKeys) :
    anecdoteScoreJs af = some (anecdoteScore af) := by
  unfold anecdoteScoreJs anecdoteScore
  split_ifs with h1 h2 h3 h4 h5
  · rfl
  · rfl
  · rfl
  · rfl
  · rcases ha with h | h | h | h | h
    · exact absurd h h1
    · exact absurd h h2
    · exact absurd h h3
    · exact absurd h h4
    · exact absurd h5 h
  · rfl

/-- C2 counterexample.  The enum string "toString" is outside the four
recognised keys, yet the JavaScript lookup returns the inherited
`Object.prototype.toString` function rather than defaulting, so the score
is NaN (modelled `none`): it is not a rational in `[0, 1]` at all. -/
theorem c2_prototype_key_counterexample :
    metaphorScoreJs "toString" = none ∧
    computeVerticalityScoreJs sampleFeatures "toString" "occasional" =
      none ∧
    ("toString" ≠ "none" ∧ "toString" ≠ "low" ∧ "toString" ≠ "moderate" ∧
      "toString" ≠ "high") := by
  refine ⟨rfl, rfl, by decide⟩

/-- C2 amended.  For every feature vector (any rational values, negative
or large included) and every pair of strings that are recognised keys or
are not `Object.prototype` property names, the JavaScript score is a real
number equal to the numeric-path score, which lies in `[0, 1]` and is an
integer multiple of `0.01`; for a prototype-inherited key name the score
is NaN instead. -/
theorem c2_score_bounded_amended (f : RawFeatures) (md af : String)
    (hm : md = "none" ∨ md = "low" ∨ md = "moderate" ∨ md = "high" ∨
      md ∉ objectPrototypeKeys)
    (ha : af = "none" ∨ af = "rare" ∨ af = "occasional" ∨
      af = "frequent" ∨ af ∉ objectPrototypeKeys) :
    computeVerticalityScoreJs f md af =
      some (computeVerticalityScore f md af) ∧
    0 ≤ computeVerticalityScore f md af ∧
    computeVerticalityScore f md af ≤ 1 ∧
    ∃ k : ℤ, 0 ≤ k ∧ k ≤ 100 ∧
      computeVerticalityScore f md af = (k : ℚ) / 100 := by
  obtain ⟨h0, h1, hk⟩ := scoreQ_bounded_centi f md af
  refine ⟨?_, h0, h1, hk⟩
  unfold computeVerticalityScoreJs
  rw [metaphorScoreJs_eq_some hm, anecdoteScoreJs_eq_some ha]
  rfl

/-- C2 witness at a concrete unrecognised but non-prototype pair. -/
theorem c2_score_bounded_amended_witness :
    computeVerticalityScoreJs sampleFeatures "unknown" "sometimes" =
      some (computeVerticalityScore sampleFeatures "unknown"
        "sometimes") ∧
    0 ≤ computeVerticalityScore sampleFeatures "unknown" "sometimes" ∧
    computeVerticalityScore sampleFeatures "unknown" "sometimes" ≤ 1 ∧
    ∃ k : ℤ, 0 ≤ k ∧ k ≤ 100 ∧
      computeVerticalityScore sampleFeatures "unknown" "sometimes" =
        (k : ℚ) / 100 :=
  c2_score_bounded_amended sampleFeatures "unknown" "sometimes"
    (by decide) (by decide)

/-- C8 counterexample.  "toString" is outside {none, low, moderate, high},
yet it does not behave like "moderate": the prototype-inherited lookup
makes the score NaN (modelled `none`), while "moderate" yields the real
score `0.56` on the sample features. -/
theorem c8_prototype_key_counterexample :
    computeVerticalityScoreJs sampleFeatures "toString" "occasional" =
      none ∧
    computeVerticalityScoreJs sampleFeatures "moderate" "occasional" =
      some 0.56 ∧
    (none : Option ℚ) ≠ some 0.56 ∧
    ("toString" ≠ "none" ∧ "toString" ≠ "low" ∧ "toString" ≠ "moderate" ∧
      "toString" ≠ "high") := by
  refine ⟨rfl, ?_, by decide, by decide⟩
  with_unfolding_all decide

/-- C8 amended.  An unrecognised `metaphorDensity` that is not an
`Object.prototype` property name scores `0.5`, exactly like "moderate",
and an unrecognised non-prototype `anecdoteFrequency` scores `0.5`,
exactly like "occasional"; for a prototype-inherited key name the lookup
returns the inherited member and the score is NaN (modelled `none`); no
case throws. -/
theorem c8_unrecognized_nonproto_defaults (f : RawFeatures)
    (md af : String)
    (hm : ¬(md = "none" ∨ md = "low" ∨ md = "moderate" ∨ md = "high"))
    (hmp : md ∉ objectPrototypeKeys)
    (ha : ¬(af = "none" ∨ af = "rare" ∨ af = "occasional" ∨
      af = "frequent"))
    (hap : af ∉ objectPrototypeKeys) :
    metaphorScoreJs md = some 0.5 ∧ anecdoteScoreJs af = some 0.5 ∧
    computeVerticalityScoreJs f md af =
      computeVerticalityScoreJs f "moderate" af ∧
    computeVerticalityScoreJs f md af =
      computeVerticalityScoreJs f md "occasional" := by
  push_neg at hm ha
  obtain ⟨hm1, hm2, hm3, hm4⟩ := hm
  obtain ⟨ha1, ha2, ha3, ha4⟩ := ha
  have hms : metaphorScoreJs md = some 0.5 := by
    unfold metaphorScoreJs
    rw [if_neg hm1, if_neg hm2, if_neg hm3, if_neg hm4, if_neg hmp]
  have has : anecdoteScoreJs af = some 0.5 := by
    unfold anecdoteScoreJs
    rw [if_neg ha1, if_neg ha2, if_neg ha3, if_neg ha4, if_neg hap]
  have hmod : metaphorScoreJs "moderate" = some 0.5 := rfl
  have hocc : anecdoteScoreJs "occasional" = some 0.5 := rfl
  refine ⟨hms, has, ?_, ?_⟩
  · unfold computeVerticalityScoreJs
    rw [hms, hmod]
  · unfold computeVerticalityScoreJs
    rw [has, hocc]

/-- C8 witness at concrete unrecognised non-prototype strings. -/
theorem c8_unrecognized_nonproto_defaults_witness :
    metaphorScoreJs "unknown" = some 0.5 ∧
    anecdoteScoreJs "sometimes" = some 0.5 ∧
    computeVerticalityScoreJs sampleFeatures "unknown" "sometimes" =
      computeVerticalityScoreJs sampleFeatures "moderate" "sometimes" ∧
    computeVerticalityScoreJs sampleFeatures "unknown" "sometimes" =
      computeVerticalityScoreJs sampleFeatures "unknown" "occasional" :=
  c8_unrecognized_nonproto_defaults sampleFeatures "unknown" "sometimes"
    (by decide) (by decide) (by decide) (by decide)

/-- A whitespace character is not a sentence terminator. -/
theorem ws_not_sentPunct {c : Char} (h : isJsWhitespace c = true) :
    isSentencePunct c = false := by
  have hn := h
  simp only [isJsWhitespace, Bool.or_eq_true, Bool.and_eq_true,
    decide_eq_true_eq] at hn
  have hne : c.toNat ≠ 46 ∧ c.toNat ≠ 33 ∧ c.toNat ≠ 63 := by omega
  simp [isSentencePunct, hne.1, hne.2.1, hne.2.2]

/-- Splitting a whitespace-only text into words yields no tokens. -/
theorem splitWsAux_eq_nil (t : List Char)
    (h : ∀ c ∈ t, isJsWhitespace c = true) : splitWsAux t [] = [] := by
  induction t with
  | nil => rfl
  | cons c rest ih =>
    have hc : isJsWhitespace c = true := h c (List.mem_cons_self c rest)
    simp only [splitWsAux, hc, if_true, List.isEmpty_nil]
    exact ih fun d hd => h d (List.mem_cons_of_mem c hd)

/-- With no sentence terminator anywhere, the sentence splitter returns the
whole text as one fragment. -/
theorem splitSentAux_no_punct (t : List Char)
    (h : ∀ c ∈ t, isSentencePunct c = false) :
    ∀ acc : List Char, splitSentAux t acc [] 0 = [acc.reverse ++ t] := by
  induction t with
  | nil => intro acc; simp [splitSentAux]
  | cons c rest ih =>
    intro acc
    have hc : isSentencePunct c = false := h c (List.mem_cons_self c rest)
    simp only [splitSentAux, hc]
    norm_num
    rw [ih (fun d hd => h d (List.mem_cons_of_mem c hd)) (c :: acc)]
    simp

/-- `jsRound2 0 = 0`. -/
theorem jsRound2_zero : jsRound2 0 = 0 := by
  with_unfolding_all decide

/-- `jsRound1 0 = 0`. -/
theorem jsRound1_zero : jsRound1 0 = 0 := by
  with_unfolding_all decide

/-- `jsRound1 1 = 1`. -/
theorem jsRound1_one : jsRound1 1 = 1 := by
  with_unfolding_all decide

/-- C3.  On the empty string, and on any text consisting solely of
whitespace, `computeRawFeatures` returns the all-default record (word
count 0, every rate 0, sentence statistics 0, subordination depth 1)
without any error path. -/
theorem c3_whitespace_only_defaults (s : String)
    (h : ∀ c ∈ s.data, isJsWhitespace c = true) :
    computeRawFeatures s =
      { wordCount := 0, egoPronounRate := 0, avgSentenceLength := 0,
        maxSentenceLength := 0, subordinationDepth := 1, semicolonFreq := 0,
        colonFreq := 0, dashFreq := 0, questionFreq := 0,
        impersonalRate := 0 } := by
  have hw : wordsOf s.data = [] := splitWsAux_eq_nil s.data h
  have hwc : wordCountOf s.data = 0 := by
    rw [wordCountOf, hw]
    rfl
  have hq : qualifyingSentences s.data = [] := by
    rw [qualifyingSentences, splitSentences,
      splitSentAux_no_punct s.data (fun c hc => ws_not_sentPunct (h c hc))
        []]
    simp [hw]
  have hsl : sentenceLengths s.data = [] := by
    rw [sentenceLengths, hq]
    rfl
  unfold computeRawFeatures computeRawFeaturesL
  simp only [RawFeatures.mk.injEq]
  refine ⟨hwc, ?_, ?_, ?_, ?_, ?_, ?_, ?_, ?_, ?_⟩
  · rw [hwc, ratePerThousand, if_pos rfl, jsRound2_zero]
  · rw [avgLenOf, hsl]
    simp [jsRound1_zero]
  · rw [maxLenOf, hsl]
    rfl
  · rw [subDepthOf, hq]
    simp [jsRound1_one]
  · rw [hwc, ratePerThousand, if_pos rfl, jsRound2_zero]
  · rw [colonRateOf, hwc, if_pos rfl, jsRound2_zero]
  · rw [hwc, ratePerThousand, if_pos rfl, jsRound2_zero]
  · rw [hwc, ratePerThousand, if_pos rfl, jsRound2_zero]
  · rw [hwc, ratePerThousand, if_pos rfl, jsRound2_zero]

/-- C3 witness: the empty string and a concrete whitespace-only string. -/
theorem c3_whitespace_only_defaults_witness :
    (∀ c ∈ ("" : String).data, isJsWhitespace c = true) ∧
    computeRawFeatures "" =
      { wordCount := 0, egoPronounRate := 0, avgSentenceLength := 0,
        maxSentenceLength := 0, subordinationDepth := 1, semicolonFreq := 0,
        colonFreq := 0, dashFreq := 0, questionFreq := 0,
        impersonalRate := 0 } ∧
    computeRawFeatures "  \t\n " =
      { wordCount := 0, egoPronounRate := 0, avgSentenceLength := 0,
        maxSentenceLength := 0, subordinationDepth := 1, semicolonFreq := 0,
        colonFreq := 0, dashFreq := 0, questionFreq := 0,
        impersonalRate := 0 } :=
  ⟨by decide, c3_whitespace_only_defaults "" (by decide),
    c3_whitespace_only_defaults "  \t\n " (by decide)⟩

/-- C6 counterexample.  On `"U.S. regulators announced policy"` the source
counts the token `U.S.` as an ego pronoun (global strip of `/[.,;:!?"']/g`
turns `u.s.` into `us`), giving rate `250`, while the claimed
surrounding-only stripping leaves `u.s`, giving rate `0`. -/
theorem c6_surround_strip_counterexample :
    (computeRawFeatures c6Text).egoPronounRate = 250 ∧
    specEgoRateSurround c6Text.data = 0 ∧ ((250 : ℚ) ≠ 0) := by
  refine ⟨?_, ?_, by norm_num⟩
  · with_unfolding_all decide
  · with_unfolding_all decide

/-- C6 amended.  The ego-pronoun count strips every occurrence of the
punctuation characters `. , ; : ! ? " '` from the lower-cased token (not
only surrounding ones) before testing membership; the rate is the count
per 1000 words (0 when the word count is 0), rounded to 2 decimals.  In
particular `U.S.` normalises to `us`, which is in the pronoun set, and a
mixed sentence is scored accordingly. -/
theorem c6_global_strip_amended :
    (∀ s : String, (computeRawFeatures s).egoPronounRate =
      jsRound2 (ratePerThousand ((wordsOf s.data).countP
        (fun w => egoPronouns.contains (normTokenEgo w)))
        (wordsOf s.data).length)) ∧
    normTokenEgo "U.S.".data = "us".data ∧
    egoPronouns.contains "us".data = true ∧
    (computeRawFeatures "My dog, and I; left.").egoPronounRate = 400 := by
  refine ⟨fun s => rfl, ?_, ?_, ?_⟩
  · with_unfolding_all decide
  · with_unfolding_all decide
  · with_unfolding_all decide

/-- C7 counterexample.  `c7Text` has 7 subordinator tokens in 6 qualifying
sentences; `clamp(1, 7, (7/6)·1.5) = 1.75`, but the stored
`subordinationDepth` is the 1-decimal rounding `1.8`, so the claimed
equality with the clamp value fails. -/
theorem c7_depth_rounding_counterexample :
    subordinatorCount c7Text.data = 7 ∧
    (qualifyingSentences c7Text.data).length = 6 ∧
    (computeRawFeatures c7Text).subordinationDepth = 1.8 ∧
    min 7 (max 1 (((7 : ℚ) / 6) * 1.5)) = 1.75 ∧ ((1.8 : ℚ) ≠ 1.75) := by
  refine ⟨?_, ?_, ?_, ?_, by norm_num⟩
  · with_unfolding_all decide
  · with_unfolding_all decide
  · with_unfolding_all decide
  · with_unfolding_all decide

/-- `jsRound1` maps `[1, 7]` into `[1, 7]`. -/
theorem jsRound1_mem_Icc {x : ℚ} (h1 : 1 ≤ x) (h7 : x ≤ 7) :
    1 ≤ jsRound1 x ∧ jsRound1 x ≤ 7 := by
  rw [jsRound1_eq_floor]
  have hk1 : (10 : ℤ) ≤ ⌊x * 10 + 1 / 2⌋ :=
    Int.le_floor.mpr (by push_cast; linarith)
  have hk7 : ⌊x * 10 + 1 / 2⌋ < 71 :=
    Int.floor_lt.mpr (by push_cast; linarith)
  have hc1 : (10 : ℚ) ≤ ((⌊x * 10 + 1 / 2⌋ : ℤ) : ℚ) := by
    exact_mod_cast hk1
  have hc2 : ((⌊x * 10 + 1 / 2⌋ : ℤ) : ℚ) ≤ 70 := by
    exact_mod_cast (by omega : ⌊x * 10 + 1 / 2⌋ ≤ 70)
  constructor
  · linarith
  · linarith

/-- C7 amended.  The subordinator count over punctuation-stripped
lower-cased tokens feeds
`clamp(1, 7, (subordinatorCount / sentenceCount) · 1.5)` (or `1` with no
qualifying sentence); the stored `subordinationDepth` is that value
rounded to 1 decimal, and it always lies in `[1, 7]`. -/
theorem c7_depth_formula_amended :
    ∀ s : String,
      (computeRawFeatures s).subordinationDepth =
        jsRound1 (subDepthOf s.data) ∧
      subDepthOf s.data =
        (if (qualifyingSentences s.data).length = 0 then 1
         else min 7 (max 1 (((subordinatorCount s.data : ℚ) /
           (qualifyingSentences s.data).length) * 1.5))) ∧
      1 ≤ (computeRawFeatures s).subordinationDepth ∧
      (computeRawFeatures s).subordinationDepth ≤ 7 := by
  intro s
  have hmem : 1 ≤ subDepthOf s.data ∧ subDepthOf s.data ≤ 7 := by
    rw [subDepthOf]
    split_ifs with h
    · norm_num
    · constructor
      · exact le_min (by norm_num) (le_max_left 1 _)
      · exact min_le_left 7 _
  have hb := jsRound1_mem_Icc hmem.1 hmem.2
  exact ⟨rfl, rfl, hb.1, hb.2⟩

/-- One sentence block contributes its ten tokens to the word split. -/
theorem c1_splitWs_block (r : List Char) :
    splitWsAux (c1Block.data ++ r) [] = c1Words ++ splitWsAux r [] :=
  rfl

/-- The final sentence contributes the same ten tokens. -/
theorem c1_splitWs_last : splitWsAux c1Last.data [] = c1Words :=
  rfl

/-- Words of the uniform text: `n` block contributions plus the final
sentence. -/
theorem c1_words (n : Nat) :
    wordsOf (c1TextL n) = (List.replicate n c1Words).flatten ++ c1Words := by
  induction n with
  | zero => simpa [wordsOf, c1TextL] using c1_splitWs_last
  | succ n ih =>
    have hsplit : c1TextL (n + 1) = c1Block.data ++ c1TextL n := by
      simp [c1TextL, List.replicate_succ, List.flatten_cons,
        List.append_assoc]
    rw [wordsOf] at ih ⊢
    rw [hsplit, c1_splitWs_block, ih]
    simp [List.replicate_succ, List.flatten_cons, List.append_assoc]

/-- From the initial state, one block emits one sentence fragment and
leaves the splitter inside the delimiter whitespace. -/
theorem c1_splitSent_block0 (r : List Char) :
    splitSentAux (c1Block.data ++ r) [] [] 0 =
      c1Frag :: splitSentAux r [] [] 2 :=
  rfl

/-- From inside delimiter whitespace, one block again emits one sentence
fragment. -/
theorem c1_splitSent_block2 (r : List Char) :
    splitSentAux (c1Block.data ++ r) [] [] 2 =
      c1Frag :: splitSentAux r [] [] 2 :=
  rfl

/-- The final sentence keeps its period in the last fragment. -/
theorem c1_splitSent_last : splitSentAux c1Last.data [] [] 2 = [c1FragDot] :=
  rfl

/-- Sentence fragments of `n` blocks plus the final sentence, from inside
delimiter whitespace. -/
theorem c1_sent_aux (n : Nat) :
    splitSentAux ((List.replicate n c1Block.data).flatten ++ c1Last.data)
        [] [] 2 =
      List.replicate n c1Frag ++ [c1FragDot] := by
  induction n with
  | zero => simpa using c1_splitSent_last
  | succ n ih =>
    rw [List.replicate_succ, List.flatten_cons, List.append_assoc,
      c1_splitSent_block2, ih, List.replicate_succ]
    rfl

/-- The sentence split of the uniform text: 99 bare fragments and a final
fragment with its period. -/
theorem c1_sentences :
    splitSentences (c1TextL 99) = List.replicate 99 c1Frag ++ [c1FragDot] := by
  have hsplit : c1TextL 99 =
      c1Block.data ++ ((List.replicate 98 c1Block.data).flatten ++
        c1Last.data) := by
    simp [c1TextL, List.replicate_succ, List.flatten_cons,
      List.append_assoc]
  rw [splitSentences, hsplit, c1_splitSent_block0, c1_sent_aux 98,
    List.replicate_succ]
  rfl

/-- Each fragment of the uniform text has exactly ten words. -/
theorem c1_frag_words : (wordsOf c1Frag).length = 10 :=
  rfl

/-- The final fragment also has exactly ten words. -/
theorem c1_fragDot_words : (wordsOf c1FragDot).length = 10 :=
  rfl

/-- All 100 fragments qualify (more than two words each). -/
theorem c1_qualifying :
    qualifyingSentences (c1TextL 99) =
      List.replicate 99 c1Frag ++ [c1FragDot] := by
  rw [qualifyingSentences, c1_sentences, List.filter_append,
    List.filter_replicate]
  simp [c1_frag_words, c1_fragDot_words]

/-- The per-sentence word counts are one hundred tens. -/
theorem c1_sentenceLengths :
    sentenceLengths (c1TextL 99) = List.replicate 99 10 ++ [10] := by
  rw [sentenceLengths, c1_qualifying, List.map_append, List.map_replicate]
  simp [c1_frag_words, c1_fragDot_words]

/-- Folding `Nat.max` over constant word counts. -/
theorem foldl_max_replicate (n : Nat) (b : Nat) :
    ∀ a : Nat, List.foldl Nat.max a (List.replicate n b ++ [b]) =
      Nat.max a b := by
  induction n with
  | zero => intro a; rfl
  | succ n ih =>
    intro a
    rw [List.replicate_succ, List.cons_append, List.foldl_cons, ih]
    exact Nat.max_eq_left (Nat.le_max_right a b)

/-- No digit characters means no `/\d:\d/` match. -/
theorem countTimeLike_eq_zero (t : List Char)
    (h : ∀ c ∈ t, isDigitChar c = false) : countTimeLike t = 0 := by
  induction t with
  | nil => rfl
  | cons a l ih =>
    rcases l with _ | ⟨b, _ | ⟨c, l3⟩⟩
    · rfl
    · rfl
    · have ha : isDigitChar a = false := h a (by simp)
      simp only [countTimeLike, ha, Bool.false_and, Bool.false_eq_true,
        if_false]
      exact ih fun d hd => h d (List.mem_cons_of_mem a hd)

/-- No hyphen characters means no `/--/` match. -/
theorem countDoubleDash_eq_zero (t : List Char)
    (h : ∀ c ∈ t, c.toNat ≠ 45) : countDoubleDash t = 0 := by
  induction t with
  | nil => rfl
  | cons a l ih =>
    rcases l with _ | ⟨b, l2⟩
    · rfl
    · have ha : a.toNat ≠ 45 := h a (by simp)
      have ha2 : decide (a.toNat = 45) = false := decide_eq_false ha
      simp only [countDoubleDash, ha2, Bool.false_and, Bool.false_eq_true,
        if_false]
      exact ih fun d hd => h d (List.mem_cons_of_mem a hd)

/-- Every character of the uniform text occurs in the single block. -/
theorem c1_mem_block (n : Nat) :
    ∀ c ∈ c1TextL n, c ∈ c1Block.data := by
  intro c hc
  rw [c1TextL] at hc
  rcases List.mem_append.mp hc with h | h
  · obtain ⟨l, hl, hcl⟩ := List.mem_flatten.mp h
    rw [List.eq_of_mem_replicate hl] at hcl
    exact hcl
  · have hb : c1Block.data = c1Last.data ++ [Char.ofNat 32] := rfl
    rw [hb]
    exact List.mem_append_left _ h

/-- No impersonal pattern matches anywhere inside one sentence block, so a
block is transparent to each pattern scanner. -/
theorem c1_pattern_block (p : List Char × Bool)
    (hp : p ∈ impersonalPatterns) (r : List Char) :
    countPatternAux p.1 p.2 0 false (c1Block.data ++ r) =
      countPatternAux p.1 p.2 0 false r := by
  fin_cases hp <;> rfl

/-- No impersonal pattern matches in the final sentence. -/
theorem c1_pattern_last (p : List Char × Bool)
    (hp : p ∈ impersonalPatterns) :
    countPatternAux p.1 p.2 0 false c1Last.data = 0 := by
  fin_cases hp <;> rfl

/-- No impersonal pattern matches anywhere in the uniform text. -/
theorem c1_pattern_all (p : List Char × Bool)
    (hp : p ∈ impersonalPatterns) (n : Nat) :
    countPatternAux p.1 p.2 0 false (c1TextL n) = 0 := by
  induction n with
  | zero => simpa [c1TextL] using c1_pattern_last p hp
  | succ n ih =>
    have hsplit : c1TextL (n + 1) = c1Block.data ++ c1TextL n := by
      simp [c1TextL, List.replicate_succ, List.flatten_cons,
        List.append_assoc]
    rw [hsplit, c1_pattern_block p hp, ih]

/-- The impersonal-construction count of the uniform text is zero. -/
theorem c1_impersonal : impersonalCount (c1TextL 99) = 0 := by
  rw [impersonalCount]
  apply List.sum_eq_zero
  intro x hx
  obtain ⟨p, hp, rfl⟩ := List.mem_map.mp hx
  rw [countPattern]
  exact c1_pattern_all p hp 99

/-- `countP` over the flattening of replicated lists. -/
theorem countP_flatten_replicate {α : Type} (p : α → Bool) (n : Nat)
    (l : List α) :
    ((List.replicate n l).flatten).countP p = n * l.countP p := by
  induction n with
  | zero => simp
  | succ n ih =>
    rw [List.replicate_succ, List.flatten_cons, List.countP_append, ih]
    ring

/-- The block's tokens contain no ego pronoun. -/
theorem c1_ego_block :
    c1Words.countP (fun w => egoPronouns.contains (normTokenEgo w)) = 0 :=
  rfl

/-- The block's tokens contain no subordinator. -/
theorem c1_sub_block :
    c1Words.countP (fun w => subordinators.contains (normTokenSub w)) = 0 :=
  rfl

/-- The uniform text has exactly 1000 words. -/
theorem c1_wordCount : wordCountOf (c1TextL 99) = 1000 := by
  rw [wordCountOf, c1_words 99, List.length_append, List.length_flatten,
    List.map_replicate]
  simp [List.sum_replicate, show c1Words.length = 10 from rfl]

/-- The uniform text has no ego pronoun. -/
theorem c1_ego : egoPronounCount (c1TextL 99) = 0 := by
  rw [egoPronounCount, c1_words 99, List.countP_append,
    countP_flatten_replicate, c1_ego_block]

/-- The uniform text has no subordinator. -/
theorem c1_sub : subordinatorCount (c1TextL 99) = 0 := by
  rw [subordinatorCount, c1_words 99, List.countP_append,
    countP_flatten_replicate, c1_sub_block]

/-- C1.  End-to-end: on the 1000-word text of 100 uniform 10-word
sentences without semicolons, colons, dashes, question marks, ego pronouns
or subordinators, `computeRawFeatures` yields egoPronounRate 0,
avgSentenceLength 10, subordinationDepth 1 and all frequency fields 0;
scoring those features with metaphorDensity "none" and anecdoteFrequency
"none" gives exactly 0.60, which classifies as "High Abstraction". -/
theorem c1_uniform_text_end_to_end :
    computeRawFeatures c1Text = c1Features ∧
    computeVerticalityScore c1Features "none" "none" = 0.60 ∧
    (getAbstractionLevel 0.60).level = "High Abstraction" := by
  refine ⟨?_, by with_unfolding_all decide, by with_unfolding_all decide⟩
  have hrw : computeRawFeatures c1Text = computeRawFeaturesL (c1TextL 99) :=
    rfl
  rw [hrw]
  have hrate0 : ratePerThousand 0 1000 = 0 := by
    norm_num [ratePerThousand]
  have hsc : semicolonCount (c1TextL 99) = 0 :=
    List.count_eq_zero.mpr fun hm =>
      absurd (c1_mem_block 99 _ hm) (by decide)
  have hcol : colonCountRaw (c1TextL 99) = 0 := by
    have h1 : (c1TextL 99).count (Char.ofNat 58) = 0 :=
      List.count_eq_zero.mpr fun hm =>
        absurd (c1_mem_block 99 _ hm) (by decide)
    have h2 : countTimeLike (c1TextL 99) = 0 :=
      countTimeLike_eq_zero _ fun c hc =>
        (by decide : ∀ c ∈ c1Block.data, isDigitChar c = false) c
          (c1_mem_block 99 c hc)
    rw [colonCountRaw, h1, h2]
    rfl
  have hdash : dashCount (c1TextL 99) = 0 := by
    have h1 : (c1TextL 99).count (Char.ofNat 0x2014) = 0 :=
      List.count_eq_zero.mpr fun hm =>
        absurd (c1_mem_block 99 _ hm) (by decide)
    have h2 : countDoubleDash (c1TextL 99) = 0 :=
      countDoubleDash_eq_zero _ fun c hc =>
        (by decide : ∀ c ∈ c1Block.data, c.toNat ≠ 45) c
          (c1_mem_block 99 c hc)
    rw [dashCount, h1, h2]
  have hqn : questionCount (c1TextL 99) = 0 :=
    List.count_eq_zero.mpr fun hm =>
      absurd (c1_mem_block 99 _ hm) (by decide)
  have havg : avgLenOf (c1TextL 99) = 10 := by
    rw [avgLenOf, c1_sentenceLengths]
    norm_num [List.sum_append, List.sum_replicate, List.length_append,
      List.length_replicate]
  have hmax : maxLenOf (c1TextL 99) = 10 := by
    rw [maxLenOf, c1_sentenceLengths, foldl_max_replicate 99 10 0]
    rfl
  have hsd : subDepthOf (c1TextL 99) = 1 := by
    rw [subDepthOf, c1_qualifying, c1_sub]
    rw [if_neg (by norm_num)]
    norm_num
  have h10 : jsRound1 10 = 10 := by
    with_unfolding_all decide
  have hcolr : colonRateOf (c1TextL 99) = 0 := by
    rw [colonRateOf, c1_wordCount, hcol]
    norm_num
  unfold computeRawFeaturesL
  rw [c1_wordCount, c1_ego, hsc, hdash, hqn, c1_impersonal, havg, hmax,
    hsd, hcolr, hrate0, jsRound2_zero, jsRound1_one, h10]
  rfl

end Verticality
